import Mathlib

/-!
Verification of the Kaleidoscope front end (lexer + parser) of
BookOwl/kaleidoscope-rs, shallowly embedded from `src/lexer.rs` and
`src/parser.rs`.

Conventions of the embedding:
* Rust `f64` numeric values are modelled as exact rationals `ℚ`; every
  literal appearing in the claims is a small integer, where the two agree.
* Rust's `str::parse::<f64>()` on the strings the lexer can produce
  (nonempty strings of digits and `.`) succeeds iff the string contains at
  least one digit and at most one `.`; `numParse` models exactly that, and
  `none` marks the `.expect("Could not parse number!")` panic.
* The lazy `Lexer` iterator is modelled by `lexNext` (one step over the
  remaining characters) and the eager `tokenize`.
* The parser's mutable state (`current` lookahead + the rest of the token
  stream) is the structure `PState`; `get_next_token` is `getNextToken`.
* The mutually recursive descent functions take a fuel argument (the Rust
  code recurses on the call stack); every claim is stated either for all
  fuel values or at a fuel large enough for the concrete input.
* Rust identifiers that Lean cannot reuse verbatim are renamed as follows:
  `Token::Extern ↦ Token.ext`, `Expr::Variable ↦ Expr.var`,
  `Parser::parse_extern ↦ parse_ext`; all other names are kept.
-/

namespace Kaleidoscope

/-- `lexer::Token` from `src/lexer.rs`. -/
inductive Token where
  | define
  | ext
  | identifier (name : String)
  | number (value : ℚ)
  | unknownChar (c : Char)
deriving DecidableEq, Repr

/-- `parser::Expr` from `src/parser.rs` (`Variable` is renamed `var`). -/
inductive Expr where
  | number (value : ℚ)
  | var (name : String)
  | binary (op : Char) (lhs rhs : Expr)
  | call (name : String) (args : List Expr)

/-- `parser::Prototype`. -/
structure Prototype where
  name : String
  args : List String
deriving DecidableEq, Repr

/-- `parser::Function`. -/
structure Function where
  prototype : Prototype
  body : Expr

/-! ## Lexer (`src/lexer.rs`) -/

/-- Value of a string of decimal digits, most significant first. -/
def digitsToNat (s : List Char) : Nat :=
  s.foldl (fun a c => a * 10 + (c.toNat - 48)) 0

/-- Model of Rust `num.parse::<f64>()` restricted to the strings the lexer
builds (first char a digit or `.`, the rest digits or `.`): it succeeds iff
the string has at least one digit and at most one `.`, and the resulting
value is modelled exactly as a rational. `none` models the panic of
`.expect("Could not parse number!")`. -/
def numParse (s : List Char) : Option ℚ :=
  if s.count '.' ≤ 1 && s.any Char.isDigit then
    let intPart := s.takeWhile (fun c => c ≠ '.')
    let fracPart := (s.dropWhile (fun c => c ≠ '.')).drop 1
    some (mkRat (digitsToNat (intPart ++ fracPart)) (10 ^ fracPart.length))
  else
    none

/-- Outcome of one `Lexer::next` call: end of stream, a panic while parsing
a numeric literal (carrying the offending literal text), or a token plus
the remaining characters. `outOfFuel` is an artifact of the fuel-based
embedding of the comment recursion and is unreachable with fuel
`cs.length + 1`, since skipping a comment consumes at least the `#`. -/
inductive LexOut where
  | eof
  | fatal (lit : List Char)
  | tok (t : Token) (rest : List Char)
  | outOfFuel
deriving DecidableEq, Repr

/-- One step of `<Lexer as Iterator>::next` (`src/lexer.rs`, lines 50-121),
operating on the remaining characters of the source. The only recursion in
the Rust code is the tail call `self.next()` after a `#` comment, embedded
here with fuel. -/
def lexNext : Nat → List Char → LexOut
  | 0, _ => .outOfFuel
  | fuel + 1, cs =>
    match cs.dropWhile Char.isWhitespace with
    | [] => .eof
    | c :: rest =>
      if c.isAlpha then
        let identifier := c :: rest.takeWhile Char.isAlphanum
        let rest1 := rest.dropWhile Char.isAlphanum
        if identifier = ['d', 'e', 'f'] then .tok .define rest1
        else if identifier = ['e', 'x', 't', 'e', 'r', 'n'] then .tok .ext rest1
        else .tok (.identifier (String.mk identifier)) rest1
      else if c.isDigit || c = '.' then
        let num := c :: rest.takeWhile (fun x => x.isDigit || x = '.')
        let rest1 := rest.dropWhile (fun x => x.isDigit || x = '.')
        match numParse num with
        | some v => .tok (.number v) rest1
        | none => .fatal num
      else if c = '#' then
        lexNext fuel (rest.dropWhile (fun x => x ≠ '\r' && x ≠ '\n'))
      else
        .tok (.unknownChar c) rest

/-- `Lexer::next` on the remaining characters, with always-sufficient fuel. -/
def lexerNext (cs : List Char) : LexOut :=
  lexNext (cs.length + 1) cs

/-- Draining the lexer (fuel-based; a fuel of `cs.length + 1` always
suffices since each produced token consumes at least one character).
`.error true` is the numeric-literal panic, `.error false` exhausted fuel. -/
def tokenizeAux : Nat → List Char → Except Bool (List Token)
  | 0, _ => .error false
  | fuel + 1, cs =>
    match lexerNext cs with
    | .eof => .ok []
    | .fatal _ => .error true
    | .outOfFuel => .error false
    | .tok t rest => (tokenizeAux fuel rest).map (fun ts => t :: ts)

/-- All tokens of a source string. -/
def tokenize (s : String) : Except Bool (List Token) :=
  tokenizeAux (s.toList.length + 1) s.toList

/-! ## Parser state (`src/parser.rs`, `struct Parser`) -/

/-- The parser's mutable state: the one-token lookahead `current` and the
not-yet-pulled remainder of the token stream. -/
structure PState where
  current : Option Token
  rest : List Token
deriving DecidableEq, Repr

/-- `Parser::from_lexer`: pulls one token into `current`. -/
def PState.fromTokens (ts : List Token) : PState :=
  ⟨ts.head?, ts.tail⟩

/-- `Parser::get_next_token`. -/
def getNextToken (st : PState) : PState :=
  ⟨st.rest.head?, st.rest.tail⟩

/-- Rendering of `format!("{:?}", ...)` on the lookahead, used in error
messages (the exact text is irrelevant to the claims). -/
def describeOpt : Option Token → String
  | none => "None"
  | some (.define) => "Some(Define)"
  | some (.ext) => "Some(Extern)"
  | some (.identifier n) => "Some(Identifier(" ++ n ++ "))"
  | some (.number _) => "Some(Number(_))"
  | some (.unknownChar c) => "Some(UnknownChar(" ++ String.mk [c] ++ "))"

/-- `token_precedence` (`src/parser.rs`, lines 203-210). -/
def token_precedence (tok : Char) : Option Nat :=
  match tok with
  | '+' | '-' => some 20
  | '<' => some 10
  | '*' => some 40
  | _ => none

/-- The lookahead's operator precedence, as computed at lines 145-148 of
`parse_bin_op_rhs`: `None` unless the lookahead is an `UnknownChar` with a
defined precedence. -/
def next_prec_of (st : PState) : Option Nat :=
  match st.current with
  | some (.unknownChar c) => token_precedence c
  | _ => none

/-- `Parser::parse_number` (lines 70-78). -/
def parse_number (st : PState) : Except String (Expr × PState) :=
  match st.current with
  | some (.number n) => .ok (.number n, getNextToken st)
  | x => .error ("Expected number, found " ++ describeOpt x)

mutual

/-- `Parser::parse_primary` (lines 118-126). -/
def parse_primary : Nat → PState → Except String (Expr × PState)
  | 0, _ => .error "recursion limit exceeded"
  | fuel + 1, st =>
    match st.current with
    | some (.identifier _) => parse_identifier_expr fuel st
    | some (.number _) => parse_number st
    | some (.unknownChar '(') => parse_paren_expr fuel st
    | x => .error ("Unknown token " ++ describeOpt x ++ " when expecting an expression")

/-- `Parser::parse_paren_expr` (lines 79-87). Note: the Rust code checks
that the lookahead is `)` but does not advance past it. -/
def parse_paren_expr : Nat → PState → Except String (Expr × PState)
  | 0, _ => .error "recursion limit exceeded"
  | fuel + 1, st =>
    match parse_expression fuel (getNextToken st) with
    | .error e => .error e
    | .ok (v, st2) =>
      match st2.current with
      | some (.unknownChar ')') => .ok (v, st2)
      | x => .error ("Expected ), found " ++ describeOpt x)

/-- `Parser::parse_identifier_expr` (lines 88-117). -/
def parse_identifier_expr : Nat → PState → Except String (Expr × PState)
  | 0, _ => .error "recursion limit exceeded"
  | fuel + 1, st =>
    match st.current with
    | some (.identifier s) =>
      if (getNextToken st).current = some (.unknownChar '(') then
        parse_call_args fuel s [] (getNextToken (getNextToken st))
      else
        .ok (.var s, getNextToken st)
    | x => .error ("Expected identifier, found " ++ describeOpt x)

/-- The argument loop of `Parser::parse_identifier_expr` (lines 98-113):
always parses a first argument expression, then on `)` consumes it and
builds the `Call`, on `,` consumes it and parses the next argument, and on
anything else fails. -/
def parse_call_args : Nat → String → List Expr → PState → Except String (Expr × PState)
  | 0, _, _, _ => .error "recursion limit exceeded"
  | fuel + 1, id, args, st =>
    match parse_expression fuel st with
    | .error e => .error e
    | .ok (a, st1) =>
      if st1.current = some (.unknownChar ')') then
        .ok (.call id (args ++ [a]), getNextToken st1)
      else if st1.current ≠ some (.unknownChar ',') then
        .error ("Expected \",\", found " ++ describeOpt st1.current)
      else
        parse_call_args fuel id (args ++ [a]) (getNextToken st1)

/-- `Parser::parse_expression` (lines 127-131). -/
def parse_expression : Nat → PState → Except String (Expr × PState)
  | 0, _ => .error "recursion limit exceeded"
  | fuel + 1, st =>
    match parse_primary fuel st with
    | .error e => .error e
    | .ok (lhs, st1) => parse_bin_op_rhs fuel 0 lhs st1

/-- `Parser::parse_bin_op_rhs` (lines 132-160): precedence climbing. The
Rust `loop` is the tail-recursive call with an unchanged threshold. -/
def parse_bin_op_rhs : Nat → Nat → Expr → PState → Except String (Expr × PState)
  | 0, _, _, _ => .error "recursion limit exceeded"
  | fuel + 1, prec, lhs, st =>
    match st.current with
    | some (.unknownChar op) =>
      match token_precedence op with
      | none => .ok (lhs, st)
      | some tokPrec =>
        if tokPrec < prec then
          .ok (lhs, st)
        else
          match parse_primary fuel (getNextToken st) with
          | .error e => .error e
          | .ok (rhs, st1) =>
            match next_prec_of st1 with
            | some n =>
              if tokPrec < n then
                match parse_bin_op_rhs fuel (tokPrec + 1) rhs st1 with
                | .error e => .error e
                | .ok (rhs1, st2) =>
                  parse_bin_op_rhs fuel prec (.binary op lhs rhs1) st2
              else
                parse_bin_op_rhs fuel prec (.binary op lhs rhs) st1
            | none =>
              parse_bin_op_rhs fuel prec (.binary op lhs rhs) st1
    | _ => .ok (lhs, st)

end

/-- The parameter-name loop of `Parser::parse_prototype` (lines 170-179):
each iteration first advances, then keeps accumulating while the new
lookahead is an identifier. `rest` is the un-pulled remainder of the token
stream; the returned state is the parser state right after the loop. -/
def proto_args_loop (acc : List String) (rest : List Token) : List String × PState :=
  match rest with
  | .identifier a :: rs => proto_args_loop (acc ++ [a]) rs
  | _ => (acc, ⟨rest.head?, rest.tail⟩)

/-- `Parser::parse_prototype` (lines 161-185). -/
def parse_prototype (st : PState) : Except String (Prototype × PState) :=
  match st.current with
  | some (.identifier name) =>
    if (getNextToken st).current ≠ some (.unknownChar '(') then
      .error ("Expected ( in prototype, found " ++ describeOpt (getNextToken st).current)
    else
      match proto_args_loop [] (getNextToken st).rest with
      | (argNames, st2) =>
        if st2.current ≠ some (.unknownChar ')') then
          .error ("Expected ) in prototype, found " ++ describeOpt st2.current)
        else
          .ok (⟨name, argNames⟩, getNextToken st2)
  | x => .error ("Expected identifier in prototype, found " ++ describeOpt x)

/-- `Parser::parse_definition` (lines 186-191): blindly eats the leading
token (assumed to be `def`), then prototype, then body. -/
def parse_definition (fuel : Nat) (st : PState) : Except String (Function × PState) :=
  match parse_prototype (getNextToken st) with
  | .error e => .error e
  | .ok (proto, st2) =>
    match parse_expression fuel st2 with
    | .error e => .error e
    | .ok (body, st3) => .ok (⟨proto, body⟩, st3)

/-- `Parser::parse_extern` (lines 192-195): blindly eats the leading token
(assumed to be `extern`), then parses a prototype. -/
def parse_ext (st : PState) : Except String (Prototype × PState) :=
  parse_prototype (getNextToken st)

/-- `Parser::parse_top_level_expr` (lines 196-200). -/
def parse_top_level_expr (fuel : Nat) (st : PState) : Except String (Function × PState) :=
  match parse_expression fuel st with
  | .error e => .error e
  | .ok (e, st1) => .ok (⟨⟨"", []⟩, e⟩, st1)

mutual

/-- Every `binary` node in the tree carries one of the supported operator
characters `+`, `-`, `*`, `<`. -/
def Expr.opsValid : Expr → Bool
  | .number _ => true
  | .var _ => true
  | .binary op l r =>
    (op == '+' || op == '-' || op == '*' || op == '<') && l.opsValid && r.opsValid
  | .call _ args => opsValidArgs args

/-- `opsValid` on every element of an argument list. -/
def opsValidArgs : List Expr → Bool
  | [] => true
  | e :: es => e.opsValid && opsValidArgs es

end

/-- `Except.isOk` specialised to the parser's result type. -/
def resultOk {α : Type} (r : Except String α) : Bool :=
  match r with
  | .ok _ => true
  | .error _ => false

/-- Tokenize a source string and start a parser on it, as
`Parser::from_source` does (the model tokenizes eagerly; all claim inputs
lex without fault). -/
def stateOfSource (s : String) : Option PState :=
  match tokenize s with
  | .ok ts => some (PState.fromTokens ts)
  | .error _ => none

/-! ## Helper lemmas -/

lemma opsValidArgs_append (xs : List Expr) (a : Expr) :
    opsValidArgs (xs ++ [a]) = (opsValidArgs xs && a.opsValid) := by
  induction xs with
  | nil => simp [opsValidArgs]
  | cons x xs ih => simp [opsValidArgs, ih, Bool.and_assoc]

lemma prec_op_mem {c : Char} {n : Nat} (h : token_precedence c = some n) :
    (c == '+' || c == '-' || c == '*' || c == '<') = true := by
  unfold token_precedence at h
  split at h <;> simp_all

/-- Soundness of the operator invariant across the whole mutual recursive
descent: every expression any of the parse functions returns satisfies
`opsValid` (for the argument loop, provided the already-collected arguments
do). -/
lemma parse_all_ops_valid (fuel : Nat) :
    (∀ st e st', parse_primary fuel st = .ok (e, st') → e.opsValid = true) ∧
    (∀ st e st', parse_paren_expr fuel st = .ok (e, st') → e.opsValid = true) ∧
    (∀ st e st', parse_identifier_expr fuel st = .ok (e, st') → e.opsValid = true) ∧
    (∀ id args st e st', opsValidArgs args = true →
      parse_call_args fuel id args st = .ok (e, st') → e.opsValid = true) ∧
    (∀ st e st', parse_expression fuel st = .ok (e, st') → e.opsValid = true) ∧
    (∀ prec lhs st e st', lhs.opsValid = true →
      parse_bin_op_rhs fuel prec lhs st = .ok (e, st') → e.opsValid = true) := by
  induction fuel with
  | zero =>
    refine ⟨fun st e st' h => ?_, fun st e st' h => ?_, fun st e st' h => ?_,
      fun id args st e st' hv h => ?_, fun st e st' h => ?_,
      fun prec lhs st e st' hv h => ?_⟩ <;>
      simp [parse_primary, parse_paren_expr, parse_identifier_expr, parse_call_args,
        parse_expression, parse_bin_op_rhs] at h
  | succ fuel ih =>
    obtain ⟨ihP, ihPar, ihId, ihArgs, ihE, ihB⟩ := ih
    refine ⟨fun st e st' h => ?_, fun st e st' h => ?_, fun st e st' h => ?_,
      fun id args st e st' hv h => ?_, fun st e st' h => ?_,
      fun prec lhs st e st' hv h => ?_⟩
    · -- parse_primary dispatches; `Number` yields a leaf, the rest recurse.
      unfold parse_primary at h
      split at h
      · exact ihId _ _ _ h
      · unfold parse_number at h
        split at h
        · simp only [Except.ok.injEq, Prod.mk.injEq] at h
          obtain ⟨h1, -⟩ := h
          subst h1
          simp [Expr.opsValid]
        · exact absurd h (by simp)
      · exact ihPar _ _ _ h
      · exact absurd h (by simp)
    · -- parse_paren_expr returns the inner expression unchanged.
      unfold parse_paren_expr at h
      split at h
      · exact absurd h (by simp)
      · rename_i v st2 heq
        split at h
        · simp only [Except.ok.injEq, Prod.mk.injEq] at h
          obtain ⟨h1, -⟩ := h
          subst h1
          exact ihE _ _ _ heq
        · exact absurd h (by simp)
    · -- parse_identifier_expr yields a Variable leaf or enters the
      -- argument loop with an empty (trivially valid) argument list.
      unfold parse_identifier_expr at h
      split at h
      · split at h
        · exact ihArgs _ _ _ _ _ (by simp [opsValidArgs]) h
        · simp only [Except.ok.injEq, Prod.mk.injEq] at h
          obtain ⟨h1, -⟩ := h
          subst h1
          simp [Expr.opsValid]
      · exact absurd h (by simp)
    · -- parse_call_args only ever appends expressions from
      -- parse_expression to the collected arguments.
      unfold parse_call_args at h
      split at h
      · exact absurd h (by simp)
      · rename_i a st1 heq
        have ha : a.opsValid = true := ihE _ _ _ heq
        split at h
        · simp only [Except.ok.injEq, Prod.mk.injEq] at h
          obtain ⟨h1, -⟩ := h
          subst h1
          simp [Expr.opsValid, opsValidArgs_append, hv, ha]
        · split at h
          · exact absurd h (by simp)
          · exact ihArgs _ _ _ _ _ (by simp [opsValidArgs_append, hv, ha]) h
    · -- parse_expression chains a primary into the climbing loop.
      unfold parse_expression at h
      split at h
      · exact absurd h (by simp)
      · rename_i lhs st1 heq
        exact ihB _ _ _ _ _ (ihP _ _ _ heq) h
    · -- parse_bin_op_rhs builds Binary nodes only from operators that
      -- token_precedence accepts.
      unfold parse_bin_op_rhs at h
      split at h
      · rename_i op hop
        split at h
        · simp only [Except.ok.injEq, Prod.mk.injEq] at h
          obtain ⟨h1, -⟩ := h
          subst h1
          exact hv
        · rename_i tokPrec hprec
          split at h
          · simp only [Except.ok.injEq, Prod.mk.injEq] at h
            obtain ⟨h1, -⟩ := h
            subst h1
            exact hv
          · split at h
            · exact absurd h (by simp)
            · rename_i rhs st1 hrhs
              have hr : rhs.opsValid = true := ihP _ _ _ hrhs
              have hop' := prec_op_mem hprec
              split at h
              · split at h
                · split at h
                  · exact absurd h (by simp)
                  · rename_i rhs1 st2 hrhs1
                    have hr1 : rhs1.opsValid = true := ihB _ _ _ _ _ hr hrhs1
                    exact ihB _ _ _ _ _ (by simp [Expr.opsValid, hop', hv, hr1]) h
                · exact ihB _ _ _ _ _ (by simp [Expr.opsValid, hop', hv, hr]) h
              · exact ihB _ _ _ _ _ (by simp [Expr.opsValid, hop', hv, hr]) h
      · simp only [Except.ok.injEq, Prod.mk.injEq] at h
        obtain ⟨h1, -⟩ := h
        subst h1
        exact hv

/-! ## Claim theorems -/

/-- C1: the claim says `parse_paren_expr` requires AND consumes the closing
`)` so that `"(1)+2"` parses to `Binary('+', Number 1, Number 2)`. The code
only checks the `)` and never advances past it: on `"(1)+2"` the top-level
parse returns `Number 1`, with `)` still the current lookahead and `+ 2`
unconsumed, and it does not return the claimed tree. -/
theorem c1_paren_close_token_not_consumed :
    tokenize "(1)+2" =
      .ok [.unknownChar '(', .number 1, .unknownChar ')', .unknownChar '+', .number 2] ∧
    parse_top_level_expr 100 (PState.fromTokens
        [.unknownChar '(', .number 1, .unknownChar ')', .unknownChar '+', .number 2]) =
      .ok (⟨⟨"", []⟩, .number 1⟩,
           ⟨some (.unknownChar ')'), [.unknownChar '+', .number 2]⟩) ∧
    parse_top_level_expr 100 (PState.fromTokens
        [.unknownChar '(', .number 1, .unknownChar ')', .unknownChar '+', .number 2]) ≠
      .ok (⟨⟨"", []⟩, .binary '+' (.number 1) (.number 2)⟩, ⟨none, []⟩) := by
  refine ⟨rfl, rfl, ?_⟩
  intro h
  have h2 := (show parse_top_level_expr 100 (PState.fromTokens
      [.unknownChar '(', .number 1, .unknownChar ')', .unknownChar '+', .number 2]) =
      .ok (⟨⟨"", []⟩, .number 1⟩,
           ⟨some (.unknownChar ')'), [.unknownChar '+', .number 2]⟩) from rfl).symm.trans h
  simp at h2

/-- C2: the claim says `"name()"` parses to a zero-argument `Call`. The
argument loop of `parse_identifier_expr` unconditionally parses a first
argument expression after `(`, so for every identifier name and every fuel
the parse of `name()` fails (on `"foo()"` with the "Unknown token ...
when expecting an expression" error at the `)`), and never yields a
zero-argument `Call`. -/
theorem c2_zero_arg_call_always_errors :
    tokenize "foo()" = .ok [.identifier "foo", .unknownChar '(', .unknownChar ')'] ∧
    (∀ (name : String) (fuel : Nat),
      resultOk (parse_expression fuel
        (PState.fromTokens [.identifier name, .unknownChar '(', .unknownChar ')'])) = false) ∧
    parse_expression 100
        (PState.fromTokens [.identifier "foo", .unknownChar '(', .unknownChar ')']) =
      .error "Unknown token Some(UnknownChar())) when expecting an expression" ∧
    resultOk (parse_top_level_expr 100
        (PState.fromTokens [.identifier "foo", .unknownChar '(', .unknownChar ')'])) = false := by
  refine ⟨rfl, ?_, rfl, rfl⟩
  intro name fuel
  rcases fuel with _ | _ | _ | _ | _ | _ | n <;> rfl

/-- C3: the operator table is exactly `* = 40`, `+ = - = 20`, `< = 10`,
every other character has no precedence, and `"1 + 2 * 3 - 2"` parses to
`Binary('-', Binary('+', Number 1, Binary('*', Number 2, Number 3)),
Number 2)` (tighter precedence deeper, left-associative at equal
precedence). -/
theorem c3_precedence_table_and_example :
    token_precedence '*' = some 40 ∧
    token_precedence '+' = some 20 ∧
    token_precedence '-' = some 20 ∧
    token_precedence '<' = some 10 ∧
    (∀ c : Char, c ≠ '+' → c ≠ '-' → c ≠ '*' → c ≠ '<' → token_precedence c = none) ∧
    tokenize "1 + 2 * 3 - 2" =
      .ok [.number 1, .unknownChar '+', .number 2, .unknownChar '*', .number 3,
           .unknownChar '-', .number 2] ∧
    parse_expression 100 (PState.fromTokens
        [.number 1, .unknownChar '+', .number 2, .unknownChar '*', .number 3,
         .unknownChar '-', .number 2]) =
      .ok (.binary '-' (.binary '+' (.number 1) (.binary '*' (.number 2) (.number 3)))
             (.number 2),
           ⟨none, []⟩) := by
  refine ⟨rfl, rfl, rfl, rfl, ?_, rfl, rfl⟩
  intro c h1 h2 h3 h4
  unfold token_precedence
  split <;> simp_all

/-- Witness for C3: the theorem's universally quantified conjunct applied
at the concrete non-operator character `x`. -/
theorem c3_witness : token_precedence 'x' = none :=
  c3_precedence_table_and_example.2.2.2.2.1 'x'
    (by decide) (by decide) (by decide) (by decide)

/-- C4: on each malformed input — unterminated `(` (`"(1"`), a call
argument list missing its `,` (`"foo(1 2)"`), and a prototype missing its
closing `)` (`"foo("`) — lexing succeeds (no panic) and every parser entry
point (`parse_definition`, `parse_ext`, `parse_top_level_expr`,
`parse_prototype`) returns an error, never an `Ok`. -/
theorem c4_malformed_inputs_all_error :
    tokenize "(1" = .ok [.unknownChar '(', .number 1] ∧
    tokenize "foo(1 2)" =
      .ok [.identifier "foo", .unknownChar '(', .number 1, .number 2, .unknownChar ')'] ∧
    tokenize "foo(" = .ok [.identifier "foo", .unknownChar '('] ∧
    resultOk (parse_top_level_expr 100
      (PState.fromTokens [.unknownChar '(', .number 1])) = false ∧
    resultOk (parse_definition 100
      (PState.fromTokens [.unknownChar '(', .number 1])) = false ∧
    resultOk (parse_ext
      (PState.fromTokens [.unknownChar '(', .number 1])) = false ∧
    resultOk (parse_prototype
      (PState.fromTokens [.unknownChar '(', .number 1])) = false ∧
    resultOk (parse_top_level_expr 100 (PState.fromTokens
      [.identifier "foo", .unknownChar '(', .number 1, .number 2, .unknownChar ')'])) = false ∧
    resultOk (parse_definition 100 (PState.fromTokens
      [.identifier "foo", .unknownChar '(', .number 1, .number 2, .unknownChar ')'])) = false ∧
    resultOk (parse_ext (PState.fromTokens
      [.identifier "foo", .unknownChar '(', .number 1, .number 2, .unknownChar ')'])) = false ∧
    resultOk (parse_prototype (PState.fromTokens
      [.identifier "foo", .unknownChar '(', .number 1, .number 2, .unknownChar ')'])) = false ∧
    resultOk (parse_top_level_expr 100
      (PState.fromTokens [.identifier "foo", .unknownChar '('])) = false ∧
    resultOk (parse_definition 100
      (PState.fromTokens [.identifier "foo", .unknownChar '('])) = false ∧
    resultOk (parse_ext
      (PState.fromTokens [.identifier "foo", .unknownChar '('])) = false ∧
    resultOk (parse_prototype
      (PState.fromTokens [.identifier "foo", .unknownChar '('])) = false := by
  exact ⟨rfl, rfl, rfl, rfl, rfl, rfl, rfl, rfl, rfl, rfl, rfl, rfl, rfl, rfl, rfl⟩

/-- C5: a numeric literal with more than one `.` (here `"1.2.3"`) reaches
the failing branch of the numeric parse: the lexer step does not produce a
token or a recoverable error but the fatal-panic outcome (the `.expect`
in `Lexer::next`). -/
theorem c5_multi_dot_literal_panics :
    numParse ['1', '.', '2', '.', '3'] = none ∧
    lexerNext "1.2.3".toList = .fatal ['1', '.', '2', '.', '3'] ∧
    tokenize "1.2.3" = .error true :=
  ⟨rfl, rfl, rfl⟩

/-- C6: `parse_prototype` takes an identifier, `(`, then identifiers with
no separators up to the first non-identifier token, which must be `)`
(consumed): `"foo()"`, `"bar(a)"`, `"bar(a b c)"` parse as claimed and a
parameter list stopped by a non-`)` token (here `,` in `"foo(a,"`) fails. -/
theorem c6_prototype_parsing :
    tokenize "foo()" = .ok [.identifier "foo", .unknownChar '(', .unknownChar ')'] ∧
    parse_prototype (PState.fromTokens
        [.identifier "foo", .unknownChar '(', .unknownChar ')']) =
      .ok (⟨"foo", []⟩, ⟨none, []⟩) ∧
    tokenize "bar(a)" =
      .ok [.identifier "bar", .unknownChar '(', .identifier "a", .unknownChar ')'] ∧
    parse_prototype (PState.fromTokens
        [.identifier "bar", .unknownChar '(', .identifier "a", .unknownChar ')']) =
      .ok (⟨"bar", ["a"]⟩, ⟨none, []⟩) ∧
    tokenize "bar(a b c)" =
      .ok [.identifier "bar", .unknownChar '(', .identifier "a", .identifier "b",
           .identifier "c", .unknownChar ')'] ∧
    parse_prototype (PState.fromTokens
        [.identifier "bar", .unknownChar '(', .identifier "a", .identifier "b",
         .identifier "c", .unknownChar ')']) =
      .ok (⟨"bar", ["a", "b", "c"]⟩, ⟨none, []⟩) ∧
    tokenize "foo(a," =
      .ok [.identifier "foo", .unknownChar '(', .identifier "a", .unknownChar ','] ∧
    parse_prototype (PState.fromTokens
        [.identifier "foo", .unknownChar '(', .identifier "a", .unknownChar ',']) =
      .error "Expected ) in prototype, found Some(UnknownChar(,))" :=
  ⟨rfl, rfl, rfl, rfl, rfl, rfl, rfl, rfl⟩

/-- C7: whenever `parse_expression` succeeds, `parse_top_level_expr`
succeeds on the same state and wraps the parsed expression in a `Function`
whose prototype has the empty-string name and no parameters; concretely
`"1 + 1"` yields `Function(Prototype("", []), Binary('+', Number 1,
Number 1))`. -/
theorem c7_top_level_expr_wraps :
    (∀ (fuel : Nat) (st : PState) (e : Expr) (st' : PState),
      parse_expression fuel st = .ok (e, st') →
      parse_top_level_expr fuel st = .ok (⟨⟨"", []⟩, e⟩, st')) ∧
    tokenize "1 + 1" = .ok [.number 1, .unknownChar '+', .number 1] ∧
    parse_top_level_expr 100 (PState.fromTokens
        [.number 1, .unknownChar '+', .number 1]) =
      .ok (⟨⟨"", []⟩, .binary '+' (.number 1) (.number 1)⟩, ⟨none, []⟩) := by
  refine ⟨?_, rfl, rfl⟩
  intro fuel st e st' h
  simp [parse_top_level_expr, h]

/-- Witness for C7: the universally quantified conjunct applied to the
concrete successful parse of `"1 + 1"`. -/
theorem c7_witness :
    parse_top_level_expr 100 (PState.fromTokens
        [.number 1, .unknownChar '+', .number 1]) =
      .ok (⟨⟨"", []⟩, .binary '+' (.number 1) (.number 1)⟩, ⟨none, []⟩) :=
  c7_top_level_expr_wraps.1 100
    (PState.fromTokens [.number 1, .unknownChar '+', .number 1])
    (.binary '+' (.number 1) (.number 1)) ⟨none, []⟩ rfl

/-- C9: `parse_definition` and `parse_ext` never inspect the leading token
they eat: their result is the same for any two states that differ only in
the `current` token; in particular neither fails when the first token is
not `Define`/`Extern` (here a definition parses although the stream starts
with `Number 5`). -/
theorem c9_leading_token_ignored :
    (∀ (fuel : Nat) (t1 t2 : Option Token) (rest : List Token),
      parse_definition fuel ⟨t1, rest⟩ = parse_definition fuel ⟨t2, rest⟩) ∧
    (∀ (t1 t2 : Option Token) (rest : List Token),
      parse_ext ⟨t1, rest⟩ = parse_ext ⟨t2, rest⟩) ∧
    parse_definition 100 (PState.fromTokens
        [.number 5, .identifier "foo", .unknownChar '(', .unknownChar ')', .number 1]) =
      .ok (⟨⟨"foo", []⟩, .number 1⟩, ⟨none, []⟩) :=
  ⟨fun _ _ _ _ => rfl, fun _ _ _ => rfl, rfl⟩

/-- C10: no entry point checks for end of input: whenever
`parse_expression` succeeds, `parse_top_level_expr` succeeds with exactly
the leftover state of the expression parse, whatever tokens remain; on
`"1 2"` and `"1 + 1 )"` it succeeds with the leading expression as body and
the trailing token still unconsumed in the final state. -/
theorem c10_trailing_tokens_ignored :
    (∀ (fuel : Nat) (st : PState) (e : Expr) (cur : Option Token) (rest : List Token),
      parse_expression fuel st = .ok (e, ⟨cur, rest⟩) →
      parse_top_level_expr fuel st = .ok (⟨⟨"", []⟩, e⟩, ⟨cur, rest⟩)) ∧
    tokenize "1 2" = .ok [.number 1, .number 2] ∧
    parse_top_level_expr 100 (PState.fromTokens [.number 1, .number 2]) =
      .ok (⟨⟨"", []⟩, .number 1⟩, ⟨some (.number 2), []⟩) ∧
    tokenize "1 + 1 )" =
      .ok [.number 1, .unknownChar '+', .number 1, .unknownChar ')'] ∧
    parse_top_level_expr 100 (PState.fromTokens
        [.number 1, .unknownChar '+', .number 1, .unknownChar ')']) =
      .ok (⟨⟨"", []⟩, .binary '+' (.number 1) (.number 1)⟩,
           ⟨some (.unknownChar ')'), []⟩) := by
  refine ⟨?_, rfl, rfl, rfl, rfl⟩
  intro fuel st e cur rest h
  simp [parse_top_level_expr, h]

/-- C8: every `binary` node in any `Expr` tree returned by a successful
`parse_definition`, `parse_top_level_expr` or `parse_expression` carries
one of the supported operator characters `+`, `-`, `*`, `<` — exactly the
characters `token_precedence` accepts. (`parse_ext` returns no `Expr`, so
the invariant is vacuous there.) -/
theorem c8_binary_ops_supported :
    (∀ (fuel : Nat) (st : PState) (f : Function) (st' : PState),
      parse_definition fuel st = .ok (f, st') → f.body.opsValid = true) ∧
    (∀ (fuel : Nat) (st : PState) (f : Function) (st' : PState),
      parse_top_level_expr fuel st = .ok (f, st') → f.body.opsValid = true) ∧
    (∀ (fuel : Nat) (st : PState) (e : Expr) (st' : PState),
      parse_expression fuel st = .ok (e, st') → e.opsValid = true) ∧
    (∀ c : Char, (token_precedence c).isSome = true ↔
      (c = '+' ∨ c = '-' ∨ c = '*' ∨ c = '<')) := by
  refine ⟨?_, ?_, ?_, ?_⟩
  · intro fuel st f st' h
    unfold parse_definition at h
    split at h
    · exact absurd h (by simp)
    · split at h
      · exact absurd h (by simp)
      · rename_i body st3 heq
        simp only [Except.ok.injEq, Prod.mk.injEq] at h
        obtain ⟨h1, -⟩ := h
        subst h1
        exact (parse_all_ops_valid fuel).2.2.2.2.1 _ _ _ heq
  · intro fuel st f st' h
    unfold parse_top_level_expr at h
    split at h
    · exact absurd h (by simp)
    · rename_i e st1 heq
      simp only [Except.ok.injEq, Prod.mk.injEq] at h
      obtain ⟨h1, -⟩ := h
      subst h1
      exact (parse_all_ops_valid fuel).2.2.2.2.1 _ _ _ heq
  · intro fuel st e st' h
    exact (parse_all_ops_valid fuel).2.2.2.2.1 _ _ _ h
  · intro c
    unfold token_precedence
    split <;> simp_all

/-- Witness for C8: the definition conjunct applied to the concrete parse
of `"def foo() 1 + 1"`. -/
theorem c8_witness :
    (Expr.binary '+' (.number 1) (.number 1)).opsValid = true :=
  c8_binary_ops_supported.1 100
    (PState.fromTokens [.define, .identifier "foo", .unknownChar '(', .unknownChar ')',
      .number 1, .unknownChar '+', .number 1])
    ⟨⟨"foo", []⟩, .binary '+' (.number 1) (.number 1)⟩ ⟨none, []⟩ rfl

/-- Witness for C10: the universally quantified conjunct applied to the
concrete parse of `"1 2"`, whose leftover state still holds `Number 2`. -/
theorem c10_witness :
    parse_top_level_expr 100 (PState.fromTokens [.number 1, .number 2]) =
      .ok (⟨⟨"", []⟩, .number 1⟩, ⟨some (.number 2), []⟩) :=
  c10_trailing_tokens_ignored.1 100 (PState.fromTokens [.number 1, .number 2])
    (.number 1) (some (.number 2)) [] rfl

end Kaleidoscope
